import Mathlib

/-!
Verification of the geopolrisk-py calculation core.

This file shallowly embeds the calculation-and-aggregation engine of the
geopolrisk-py library (files `core.py`, `utils.py`, `main.py`) and proves
properties of the embedding.

Modelling conventions:
* Python floats are modelled as `ℚ`.
* A pandas cell of an object-typed column is a `PyCell`: a float, a string,
  or a null (`None`/NaN).
* The key columns of the BACI trade table (`period`, `reporterCode`,
  `partnerCode`, `cmdCode`, `partnerDesc`) are modelled as `String` cells,
  and the `ISO` column of the `Country_ISO` table as `String` cells, matching
  the TEXT affinity of the backing SQLite tables; therefore a Python equality
  comparison between such a cell and an `int` value is `False`.
* Python values that may be an `int` or a `str` (resource and country
  identifiers) are a `PyId`.
* `int(s)` on a string is modelled by `strToInt?` (success exactly on
  integer literals), and `float(s)` by `pyFloat?` with the same domain; the
  claims under study only exercise it on sentinel or integer-literal strings.
* Code that can raise returns `Except String α`; the string carries the
  Python exception name.  A `try`/`except` block is a `match` on that value.
-/

/-- A value of a pandas object column: float, string, or null (None / NaN). -/
inductive PyCell where
  | float (q : ℚ)
  | str (s : String)
  | none
deriving DecidableEq, Repr

/-- A Python identifier argument that may be an `int` or a `str`. -/
inductive PyId where
  | int (n : Int)
  | str (s : String)
deriving DecidableEq, Repr

/-- Python `str(x)` for a `PyId`. -/
def pyStr : PyId → String
  | .int n => toString n
  | .str s => s

/-- Decimal digit value of a character, if any. -/
def pyDigit? (c : Char) : Option Nat :=
  if '0' ≤ c && c ≤ '9' then some (c.toNat - '0'.toNat) else Option.none

/-- Accumulate a decimal numeral; fails on any non-digit. -/
def digitsToNat (acc : Nat) : List Char → Option Nat
  | [] => some acc
  | c :: cs =>
    match pyDigit? c with
    | some d => digitsToNat (acc * 10 + d) cs
    | Option.none => Option.none

/-- Python `int(s)` on a string: models success exactly on (optionally
negated) nonempty decimal numerals, the only successful inputs the code
under study feeds it. -/
def strToInt? (s : String) : Option Int :=
  match s.data with
  | [] => Option.none
  | '-' :: cs =>
    match cs with
    | [] => Option.none
    | _ => (digitsToNat 0 cs).map (fun n => -(n : Int))
  | cs => (digitsToNat 0 cs).map (fun n => (n : Int))

/-- Whitespace for `str.strip()`. -/
def isWS (c : Char) : Bool :=
  c = ' ' || c = '\t' || c = '\n' || c = '\r'

/-- Drop leading whitespace characters. -/
def dropWS : List Char → List Char
  | [] => []
  | c :: cs => if isWS c then dropWS cs else c :: cs

/-- Python `s.strip()`. -/
def pyStrip (s : String) : String :=
  String.mk (dropWS (dropWS s.data.reverse).reverse)

/-- Python `float(s)` on a string: models success exactly on integer
literals (the code under study only parses sentinels and integer-literal
strings). -/
def pyFloat? (s : String) : Option ℚ :=
  (strToInt? s).map (fun n => (n : ℚ))

/-- Python equality between a string-typed cell and a `PyId`: comparing a
string to an int is `False` in Python. -/
def cellEqPyId (cell : String) : PyId → Bool
  | .int _ => false
  | .str s => cell = s

/-- Result of `cvtcountry(..., type="ISO")`: the raw ISO cell (a string) for a
name input or a region passthrough, or a parsed `int` for a numeric input. -/
inductive CV where
  | int (n : Int)
  | str (s : String)
deriving DecidableEq, Repr

/-- Python `str(x)` for a `CV`. -/
def cvStr : CV → String
  | .int n => toString n
  | .str s => s

/-- Python equality between a string-typed cell and a `CV`. -/
def cellEqCV (cell : String) : CV → Bool
  | .int _ => false
  | .str s => cell = s

/-- One row of the `Country_ISO` mapping table. -/
structure ISORow where
  country : String
  iso : String
deriving DecidableEq, Repr

/-- One row of the `HS Code Map` table. -/
structure MapRow where
  id : String
  hsCode : String
  sheetName : String
deriving DecidableEq, Repr

/-- One row of a production table: country name, country code (the value
`"DELETE"` flags a withdrawn row), the per-table unit cell, and the year
columns (`some none` would be a NaN; a missing year entry is also read as
NaN, i.e. 0 after `fillna(0)`). -/
structure ProdRow where
  country : String
  countryCode : String
  unit : String
  cells : List (String × Option ℚ)
deriving DecidableEq, Repr

/-- A production table: its year columns, whether it has a `unit` column,
and its rows. -/
structure ProdTable where
  columns : List String
  hasUnitCol : Bool
  rows : List ProdRow
deriving DecidableEq, Repr

/-- One row of the flattened BACI trade table. -/
structure TradeRow where
  period : String
  reporterCode : String
  partnerCode : String
  partnerDesc : String
  cmdCode : String
  qty : PyCell
  cifvalue : PyCell
  partnerWGI : PyCell
deriving DecidableEq, Repr

/-- The `Database` object: identifier maps, production sheets, the BACI
trade table, and the region registry.  (In the source the `Country_ISO` and
`HS Code Map` sheets live inside the same `production` dict; they are split
out here so the other sheets can be plain production tables.) -/
structure DB where
  countryISO : List ISORow
  hsCodeMap : List MapRow
  production : List (String × ProdTable)
  baciTrade : List TradeRow
  regional : Bool
  regionslist : List (String × List String)
deriving DecidableEq, Repr

/-- `True` exactly on `Except.error`. -/
def isErr {α : Type} : Except String α → Bool
  | .error _ => true
  | .ok _ => false

/-- `utils.sumproduct`: sum of pairwise products, truncating like `zip`. -/
def sumproduct : List ℚ → List ℚ → ℚ
  | a :: as, b :: bs => a * b + sumproduct as bs
  | _, _ => 0

/-- `utils.replace_func`: floats pass through; `None`, strings stripping to
`"NA"`, and the single-space string become `0`; other strings pass through. -/
def replace_func (x : PyCell) : PyCell :=
  match x with
  | .float q => .float q
  | .none => .float 0
  | .str s => if pyStrip s = "NA" || s = " " then .float 0 else .str s

/-- The `replace_func` local to `core.importrisk`: `float(x)` unless the
value is `None` or exactly `"NA"`; any coercion failure degrades to `0.0`. -/
def coreReplace (x : PyCell) : ℚ :=
  match x with
  | .float q => q
  | .none => 0
  | .str s => if s = "NA" then 0 else (pyFloat? s).getD 0

/-- The `wgi_func` local to `core.importrisk`: floats pass through; `None`
and strings stripping to `"NA"` become `0.5`; other strings pass through
(and make the later `astype(float)` fail when non-numeric). -/
def wgi_func (x : PyCell) : PyCell :=
  match x with
  | .float q => .float q
  | .none => .float (1 / 2)
  | .str s => if pyStrip s = "NA" then .float (1 / 2) else .str s

/-- pandas `.astype(float)` on a list of cells: parses strings, fails on
non-numeric strings and on nulls. -/
def astypeFloat : List PyCell → Except String (List ℚ)
  | [] => .ok []
  | .float q :: rest => (astypeFloat rest).map (fun l => q :: l)
  | .str s :: rest =>
      match pyFloat? s with
      | some q => (astypeFloat rest).map (fun l => q :: l)
      | Option.none => .error "ValueError: could not convert string to float"
  | .none :: _ => .error "TypeError: float() argument must not be None"

/-- pandas `.sum()` on a raw object column as used on unconverted `qty` /
`cifvalue` columns: sums numeric cells; a string or null cell makes the
operation (or the comparison consuming it) raise, modelled as an error. -/
def pdSum : List PyCell → Except String ℚ
  | [] => .ok 0
  | .float q :: rest => (pdSum rest).map (fun t => q + t)
  | _ :: _ => .error "TypeError: unsupported operand type"

/-- pandas `Series.unique()`: first occurrences, in order. -/
def uniqueFirst : List String → List String
  | [] => []
  | a :: l => a :: uniqueFirst (l.filter (fun b => b ≠ a))
termination_by l => l.length
decreasing_by
  simp only [List.length_cons]
  exact Nat.lt_succ_of_le (List.length_filter_le _ _)

/-- `utils.cvtcountry(db, country, type="ISO")`.  A known country name
returns its raw ISO cell; with `db.regional`, a registered region name
passes through; otherwise `int(country)` is attempted and checked against
the ISO column read as integers. -/
def cvtcountryISO (db : DB) (country : PyId) : Except String CV :=
  match country with
  | .str s =>
    if (db.countryISO.map (fun r => r.country)).contains s then
      match db.countryISO.find? (fun r => r.country = s) with
      | some r => .ok (.str r.iso)
      | Option.none => .error "IndexError"
    else if db.regional && (db.regionslist.map (fun p => p.1)).contains s then
      .ok (.str s)
    else
      match strToInt? s with
      | Option.none => .error "ValueError: invalid literal for int()"
      | some n =>
        if (db.countryISO.filterMap (fun r => strToInt? r.iso)).contains n then
          .ok (.int n)
        else .error "ValueError: cannot be converted to ISO"
  | .int n =>
    -- an int is never equal to a string cell of the Country column nor a
    -- string key of the region registry, so only the numeric path remains
    if (db.countryISO.filterMap (fun r => strToInt? r.iso)).contains n then
      .ok (.int n)
    else .error "ValueError: cannot be converted to ISO"

/-- `utils.cvtcountry(db, country, type="Name")`.  `int(country)` is first
attempted (bare `except ValueError`); an integer input is then looked up in
the ISO column read as integers, but the subsequent `.loc` match compares
the raw string cells against the int and matches nothing, so `.iloc[0]`
raises `IndexError`; a string input is matched against country names, then
against the region registry. -/
def cvtcountryName (db : DB) (country : PyId) : Except String String :=
  let c : PyId :=
    match country with
    | .int n => .int n
    | .str s => match strToInt? s with
                | some n => .int n
                | Option.none => .str s
  match c with
  | .int n =>
    if (db.countryISO.filterMap (fun r => strToInt? r.iso)).contains n then
      .error "IndexError: single positional indexer is out-of-bounds"
    else .error "ValueError: cannot be converted to Name"
  | .str s =>
    if (db.countryISO.map (fun r => r.country)).contains s then .ok s
    else if db.regional && (db.regionslist.map (fun p => p.1)).contains s then
      .ok s
    else .error "ValueError: cannot be converted to Name"

/-- `utils.cvtresource(db, resource, type="HS")`.  A resource name found in
the `ID` column maps to `int` of its `HS Code` cell; otherwise
`int(resource)` is attempted (raising `ValueError` on failure) and checked
against the `HS Code` column; when that membership fails the Python
function falls off its end and returns `None`, modelled as `.ok none`. -/
def cvtresourceHS (db : DB) (resource : PyId) : Except String (Option Int) :=
  match resource with
  | .str s =>
    if (db.hsCodeMap.map (fun m => m.id)).contains s then
      match db.hsCodeMap.find? (fun m => m.id = s) with
      | some m =>
        match strToInt? m.hsCode with
        | some n => .ok (some n)
        | Option.none => .error "ValueError: invalid literal for int()"
      | Option.none => .error "IndexError"
    else
      match strToInt? s with
      | Option.none => .error "ValueError"
      | some n =>
        if (db.hsCodeMap.map (fun m => m.hsCode)).contains (toString n) then
          .ok (some n)
        else .ok Option.none
  | .int n =>
    -- an int is never a member of the string `ID` column; `int(n) = n`
    if (db.hsCodeMap.map (fun m => m.hsCode)).contains (toString n) then
      .ok (some n)
    else .ok Option.none

/-- `utils.cvtresource(db, resource, type="Name")`.  `int(resource)` is
attempted first (bare `except`); the HS-code column is searched for
`str(resource)` and the matching `ID` returned; otherwise a string resource
already present in the `ID` column passes through; anything else raises. -/
def cvtresourceName (db : DB) (resource : PyId) : Except String String :=
  let r : PyId :=
    match resource with
    | .int n => .int n
    | .str s => match strToInt? s with
                | some n => .int n
                | Option.none => .str s
  match db.hsCodeMap.find? (fun m => m.hsCode = pyStr r) with
  | some m => .ok m.id
  | Option.none =>
    match r with
    | .str s =>
      if (db.hsCodeMap.map (fun m => m.id)).contains s then .ok s
      else .error "ValueError"
    | .int _ => .error "ValueError"

/-- `utils.getProd`: resolve the resource through the `HS Code Map` (by `ID`,
else by `HS Code` provided the resource is not `"Not Available"`) to a sheet
name, then fetch that sheet from `db.production` (a missing sheet is a
`KeyError`). -/
def getProd (resource : PyId) (db : DB) : Except String ProdTable :=
  let idMatch : Option MapRow :=
    match resource with
    | .str s => db.hsCodeMap.find? (fun m => m.id = s)
    | .int _ => Option.none
  match idMatch with
  | some m =>
    match db.production.lookup m.sheetName with
    | some t => .ok t
    | Option.none => .error "KeyError"
  | Option.none =>
    if (db.hsCodeMap.map (fun m => m.hsCode)).contains (pyStr resource)
        && (match resource with
            | .str s => s ≠ "Not Available"
            | .int _ => true) then
      match db.hsCodeMap.find? (fun m => m.hsCode = pyStr resource) with
      | some m =>
        match db.production.lookup m.sheetName with
        | some t => .ok t
        | Option.none => .error "KeyError"
      | Option.none => .error "IndexError"
    else .error "ValueError: resource not found in HS Code Map"

/-- The non-`"DELETE"` rows of a production table
(`proddf[proddf["Country_Code"] != "DELETE"]`). -/
def prodFilter (t : ProdTable) : List ProdRow :=
  t.rows.filter (fun r => r.countryCode ≠ "DELETE")

/-- A row's value in a year column after `fillna(0)`: a missing entry or a
NaN reads as `0`. -/
def cellD (r : ProdRow) (year : String) : ℚ :=
  match r.cells.lookup year with
  | some (some q) => q
  | _ => 0

/-- The `prod_year` list: year-column values of the non-`"DELETE"` rows,
NaN replaced by 0. -/
def prodYear (t : ProdTable) (year : String) : List ℚ :=
  (prodFilter t).map (fun r => cellD r year)

/-- The HHI value computed inside `core.HHI`:
`sumproduct(prod_year, prod_year) / sum(prod_year) ** 2` when the total is
positive, else `0`. -/
def hhiOf (t : ProdTable) (year : String) : ℚ :=
  if (prodYear t year).sum > 0 then
    sumproduct (prodYear t year) (prodYear t year) / (prodYear t year).sum ^ 2
  else 0

/-- The unit-normalization block of `core.HHI`.  It runs on the local
`ProdQty` when the filtered table is nonempty and has a `unit` column:
`"kg"` divides by 1000, `"Mio m3"` multiplies by 0.0008, any unit outside
`["metr. t", "kg"]` raises `ValueError`.  The caller of this helper binds
the result to a local that is never used again, mirroring the source, where
the normalized `ProdQty` is dead. -/
def unitNorm (rows : List ProdRow) (hasUnitCol : Bool) (q : ℚ) : Except String ℚ :=
  if !rows.isEmpty && hasUnitCol then
    let unit := ((rows.head?).map (fun r => r.unit)).getD ""
    if unit = "kg" then .ok (q / 1000)
    else if unit = "Mio m3" then .ok (q * (8 / 10000))
    else if !(["metr. t", "kg"].contains unit) then
      .error "ValueError: Unexpected unit"
    else .ok q
  else .ok q

/-- The body of `core.HHI` inside its `try` block.  Empty table or missing
year column returns `(0, 0)`; otherwise the HHI is computed over the
non-`"DELETE"` rows; the country production is the first row matching the
resolved country name (`.iloc[0]`), `0` when none matches, and the total
`sum(prod_year)` when no country is given; the unit normalization is then
computed on the local total and discarded.  Any raised exception becomes an
`error`. -/
def HHI_body (resource : PyId) (year : String) (db : DB) (country : Option PyId) :
    Except String (ℚ × ℚ) :=
  match getProd resource db with
  | .error e => .error e
  | .ok proddf =>
    if proddf.rows.isEmpty || !(proddf.columns.contains year) then .ok (0, 0)
    else
      let rows := prodFilter proddf
      let hhi := hhiOf proddf year
      let countryProd : Except String ℚ :=
        match country with
        | some c =>
          match cvtcountryName db c with
          | .error e => .error e
          | .ok name =>
            .ok (match rows.find? (fun r => r.country = name) with
                 | some r => cellD r year
                 | Option.none => 0)
        | Option.none => .ok (prodYear proddf year).sum
      match countryProd with
      | .error e => .error e
      | .ok country_prod =>
        match unitNorm rows proddf.hasUnitCol (prodYear proddf year).sum with
        | .error e => .error e
        | .ok _deadProdQty => .ok (country_prod, hhi)

/-- `core.HHI`: the `try` body with the blanket `except` that degrades any
failure to `(0, 0)`. -/
def HHI (resource : PyId) (year : String) (db : DB) (country : Option PyId) :
    ℚ × ℚ :=
  match HHI_body resource year db country with
  | .ok v => v
  | .error _ => (0, 0)

/-- Key of the `lru_cache` of `core.cached_HHI`: the exact argument tuple. -/
abbrev CKey := PyId × String × DB × Option PyId

/-- The memoization table of `core.cached_HHI`. -/
abbrev Cache := List (CKey × (ℚ × ℚ))

/-- Lookup in the memoization table by key equality. -/
def cacheLookup (cache : Cache) (k : CKey) : Option (ℚ × ℚ) :=
  match cache with
  | [] => Option.none
  | (k', v) :: rest => if k' = k then some v else cacheLookup rest k

/-- `core.cached_HHI` with the `lru_cache(maxsize=None)` state made
explicit: on a hit the cached pair is returned and the wrapped computation
is not invoked (`Bool` result `false`); on a miss `HHI` runs once and the
result is inserted.  (The `try`/`except` inside `cached_HHI` is vacuous
because `HHI` already catches everything.) -/
def cached_HHI (cache : Cache) (resource : PyId) (year : String) (db : DB)
    (country : Option PyId) : (ℚ × ℚ) × Cache × Bool :=
  let k : CKey := (resource, year, db, country)
  match cacheLookup cache k with
  | some v => (v, cache, false)
  | Option.none =>
    let v := HHI resource year db country
    (v, (k, v) :: cache, true)

/-- `core.GeoPolRisk`: `(0, 0, 0)` for a non-positive denominator, else
`Score = hhi·WTA` (a `None` hhi read as 0), `CF = Score·price` when the
price is positive else `0`, and `WTA = numerator/denominator`, returned in
the order `(Score, CF, WTA)`.  The `db` argument is never read. -/
def GeoPolRisk (numerator denominator price : ℚ) (hhi : Option ℚ) (db : DB) :
    ℚ × ℚ × ℚ :=
  if denominator ≤ 0 then (0, 0, 0)
  else
    let WTA := numerator / denominator
    let h := match hhi with
             | some v => v
             | Option.none => 0
    let Score := h * WTA
    let CF := if price > 0 then Score * price else 0
    (Score, CF, WTA)

/-- The trade rows selected for one reporter inside `utils.aggregateTrade`:
`period == str(year)`, `cmdCode == str(commoditycode)`,
`reporterCode == str(country_code)`. -/
def tradeRowsFor (data : List TradeRow) (year : String) (cmd : PyId) (code : CV) :
    List TradeRow :=
  data.filter (fun t =>
    t.period = year && t.cmdCode = pyStr cmd && t.reporterCode = cvStr code)

/-- The per-member body of `utils.aggregateTrade`: resolve the country to an
ISO code (an unresolvable member raises out of the whole aggregation), select
its rows, contribute `(0, 0, 0)` when none match, else run `replace_func` and
`astype(float)` over `qty`, `cifvalue` and `partnerWGI` (note: `partnerWGI`
goes through `replace_func`, not through a WGI defaulter) and return
`(Σqty, Σcifvalue, Σ qty·wgi)`. -/
def aggCountry (data : List TradeRow) (year : String) (cmd : PyId) (db : DB)
    (country : PyId) : Except String (ℚ × ℚ × ℚ) :=
  match cvtcountryISO db country with
  | .error e => .error e
  | .ok code =>
    let rows := tradeRowsFor data year cmd code
    if rows.isEmpty then .ok (0, 0, 0)
    else
      match astypeFloat (rows.map (fun t => replace_func t.qty)) with
      | .error e => .error e
      | .ok qtys =>
        match astypeFloat (rows.map (fun t => replace_func t.cifvalue)) with
        | .error e => .error e
        | .ok vals =>
          match astypeFloat (rows.map (fun t => replace_func t.partnerWGI)) with
          | .error e => .error e
          | .ok wgis => .ok (qtys.sum, vals.sum, sumproduct qtys wgis)

/-- The accumulation loop of `utils.aggregateTrade` over the member list,
returning `(total_qty, total_value, total_numerator)`. -/
def aggLoop (data : List TradeRow) (year : String) (cmd : PyId) (db : DB) :
    List PyId → Except String (ℚ × ℚ × ℚ)
  | [] => .ok (0, 0, 0)
  | c :: cs =>
    match aggCountry data year cmd db c with
    | .error e => .error e
    | .ok (q, v, n) =>
      match aggLoop data year cmd db cs with
      | .error e => .error e
      | .ok (tq, tv, tn) => .ok (q + tq, v + tv, n + tn)

/-- `utils.aggregateTrade`: accumulate over the members, then return
`(total_numerator, total_qty, price)` with
`price = total_value / total_qty` when the total quantity is positive,
else `0`. -/
def aggregateTrade (data : List TradeRow) (year : String) (countries : List PyId)
    (cmd : PyId) (db : DB) : Except String (ℚ × ℚ × ℚ) :=
  match aggLoop data year cmd db countries with
  | .error e => .error e
  | .ok (tq, tv, tn) => .ok (tn, tq, if tq > 0 then tv / tq else 0)

/-- The triple `(Σqty, Σcifvalue, Σ qty·wgi)` a member contributes to
`aggregateTrade`, read off `aggCountry` (zero on a failed member, a case the
theorems exclude by hypothesis). -/
def memberTriple (data : List TradeRow) (year : String) (cmd : PyId) (db : DB)
    (country : PyId) : ℚ × ℚ × ℚ :=
  match aggCountry data year cmd db country with
  | .ok t => t
  | .error _ => (0, 0, 0)

/-- The `Numerator` a single member yields from the direct (single-country)
aggregation, i.e. `aggregateTrade` on the one-element list. -/
def memberNumerator (data : List TradeRow) (year : String) (cmd : PyId) (db : DB)
    (country : PyId) : ℚ :=
  match aggregateTrade data year [country] cmd db with
  | .ok (n, _, _) => n
  | .error _ => 0

/-- The `TotalTrade` a single member yields from the direct (single-country)
aggregation, i.e. `aggregateTrade` on the one-element list. -/
def memberTotalTrade (data : List TradeRow) (year : String) (cmd : PyId) (db : DB)
    (country : PyId) : ℚ :=
  match aggregateTrade data year [country] cmd db with
  | .ok (_, q, _) => q
  | .error _ => 0

/-- One result record of `core.importrisk`. -/
structure XRow where
  exporter : String
  numerator : ℚ
  totalTrade : ℚ
  globalPrice : ℚ
  countryPrice : ℚ
deriving DecidableEq, Repr

/-- The per-exporter body of `core.importrisk`, wrapped in its own
`try`/`except`: an unresolvable exporter, an empty trade slice, or a WGI
coercion failure all skip the exporter (`Option.none`); otherwise `qty` goes
through the local `replace_func` and `partnerWGI` through `wgi_func` then
`astype(float)`, yielding the exporter's numerator and total trade. -/
def irExporterStep (trade_data : List TradeRow) (resource : PyId) (year : String)
    (importerIso : CV) (global_price country_price : ℚ) (db : DB)
    (exporter : String) : Option XRow :=
  match cvtcountryISO db (.str exporter) with
  | .error _ => Option.none
  | .ok exporterIso =>
    let tradedf := trade_data.filter (fun t =>
      t.period = year && cellEqCV t.reporterCode importerIso
        && cellEqCV t.partnerCode exporterIso && t.cmdCode = pyStr resource)
    if tradedf.isEmpty then Option.none
    else
      match astypeFloat (tradedf.map (fun t => wgi_func t.partnerWGI)) with
      | .error _ => Option.none
      | .ok wgis =>
        let qtys := tradedf.map (fun t => coreReplace t.qty)
        some { exporter := exporter
               numerator := sumproduct qtys wgis
               totalTrade := qtys.sum
               globalPrice := global_price
               countryPrice := country_price }

/-- `core.importrisk`.  The importer is resolved to an ISO value (failure
hits the outer `except` and returns no rows); the importer's whole trade
slice prices the country (`Σvalue/Σqty`, `0` on an empty slice or zero
quantity; note the row filters compare the string cells against the
resolved value, so an `int` ISO matches nothing); then each exporter is
processed independently. -/
def importrisk (resource : PyId) (year : String) (importing_country : PyId)
    (exporting_country : List String) (trade_data : List TradeRow)
    (global_price : ℚ) (db : DB) : List XRow :=
  match cvtcountryISO db importing_country with
  | .error _ => []
  | .ok importerIso =>
    let ctd := trade_data.filter (fun t =>
      t.period = year && cellEqCV t.reporterCode importerIso
        && t.cmdCode = pyStr resource)
    let country_price :=
      if ctd.isEmpty then 0
      else
        let tq := (ctd.map (fun t => coreReplace t.qty)).sum
        let tv := (ctd.map (fun t => coreReplace t.cifvalue)).sum
        if tq > 0 then tv / tq else 0
    exporting_country.filterMap
      (irExporterStep trade_data resource year importerIso global_price
        country_price db)

/-- Python `str(x)` for the value returned by `cvtresource(..., "HS")`,
which may be the implicit `None`. -/
def pyStrOfOptInt : Option Int → String
  | Option.none => "None"
  | some n => toString n

/-- The per-resource HS-code resolution loop of
`utils.preprocess_trade_data`: `[str(cvtresource(db, rm, "HS")) for rm in
resources]`, aborting at the first failure. -/
def resourceCodes (db : DB) : List PyId → Except String (List String)
  | [] => .ok []
  | r :: rs =>
    match cvtresourceHS db r with
    | .error e => .error e
    | .ok c =>
      match resourceCodes db rs with
      | .error e => .error e
      | .ok cs => .ok (pyStrOfOptInt c :: cs)

/-- `utils.preprocess_trade_data`: an empty BACI table is a fatal
`RuntimeError`; otherwise every resource is resolved to an HS-code string
(an unresolvable resource raises here, before any combination runs) and the
trade table is filtered to the requested periods and codes. -/
def preprocess_trade_data (periods : List String) (resources : List PyId)
    (db : DB) : Except String (List TradeRow) :=
  if db.baciTrade.isEmpty then
    .error "RuntimeError: Database is missing required table: baci_trade"
  else
    match resourceCodes db resources with
    | .error e => .error e
    | .ok codes =>
      .ok (db.baciTrade.filter (fun t =>
        periods.contains t.period && codes.contains t.cmdCode))

/-- Membership test of `utils.regions` for one region member: present in the
`Country` column or in the raw `ISO` column. -/
def regionsValidMember (db : DB) (x : String) : Bool :=
  (db.countryISO.map (fun r => r.country)).contains x
    || (db.countryISO.map (fun r => r.iso)).contains x

/-- Python dict assignment `d[k] = v` on an association list. -/
def dictInsert (d : List (String × List String)) (k : String)
    (v : List String) : List (String × List String) :=
  if d.any (fun p => p.1 = k) then
    d.map (fun p => if p.1 = k then (k, v) else p)
  else d ++ [(k, v)]

/-- The default fill at the end of `utils.regions`: every country name not
yet a key of the region registry becomes a singleton region. -/
def regionsFill (d : List (String × List String)) :
    List String → List (String × List String)
  | [] => d
  | c :: cs =>
    regionsFill (if d.any (fun p => p.1 = c) then d else d ++ [(c, [c])]) cs

/-- The validation loop of `utils.regions` over the caller's region dict:
each entry with only known members is inserted; the first invalid entry
makes the function return early (entries inserted so far are kept, the
`regional` flag and the default fill are skipped). -/
def regionsLoop (db : DB) (track : Nat) :
    List (String × List String) → DB × Bool
  | [] => (db, track > 0)
  | (k, v) :: rest =>
    if v.all (regionsValidMember db) then
      regionsLoop { db with regionslist := dictInsert db.regionslist k v }
        (track + 1) rest
    else (db, false)

/-- `utils.regions` as a `DB` transformer (the source mutates `db`):
validate and insert the caller's regions, set `regional` when at least one
was added, then add every country as a singleton region; an invalid entry
aborts before the flag and the fill. -/
def regionsFn (regionDict : List (String × List String)) (db : DB) : DB :=
  match regionsLoop db 0 regionDict with
  | (db1, true) =>
    let db2 := { db1 with regional := true }
    { db2 with
      regionslist :=
        regionsFill db2.regionslist (db2.countryISO.map (fun r => r.country)) }
  | (db1, false) =>
    if regionDict.isEmpty then
      { db1 with
        regionslist :=
          regionsFill db1.regionslist (db1.countryISO.map (fun r => r.country)) }
    else db1

/-- One result record assembled by `main.gprs_calc`. -/
structure Record where
  year : String
  importing : String
  exporting : String
  resourceHS : PyId
  resourceName : String
  score : ℚ
  cf : ℚ
  hhi : ℚ
  importRisk : ℚ
  globalPrice : ℚ
  countryPrice : ℚ
deriving DecidableEq, Repr

/-- The per-exporter record-building loop of `main.gprs_calc`: each risk row
yields one record via `GeoPolRisk`; the importer name, exporter name and
resource name are resolved per row and a resolution failure propagates
(aborting the batch). -/
def buildRows (db : DB) (year : String) (importing : PyId) (resource : PyId)
    (denominator country_price hhi global_price : ℚ) :
    List XRow → Except String (List Record)
  | [] => .ok []
  | risk :: rest =>
    match GeoPolRisk risk.numerator denominator country_price (some hhi) db with
    | (score, cf, ir) =>
      match cvtcountryName db importing with
      | .error e => .error e
      | .ok impName =>
        match cvtcountryName db (.str risk.exporter) with
        | .error e => .error e
        | .ok expName =>
          match cvtresourceName db resource with
          | .error e => .error e
          | .ok resName =>
            match buildRows db year importing resource denominator
                country_price hhi global_price rest with
            | .error e => .error e
            | .ok rs =>
              .ok ({ year := year, importing := impName, exporting := expName
                     resourceHS := resource, resourceName := resName
                     score := score, cf := cf, hhi := hhi, importRisk := ir
                     globalPrice := global_price
                     countryPrice := country_price } :: rs)

/-- One iteration of the cross-product loop of `main.gprs_calc`, threading
the accumulated records and the `cached_HHI` memoization table.  Each empty
dataset condition (`continue` in the source) leaves the state unchanged;
every other failure propagates as an error. -/
def gprsStep (filtered : List TradeRow) (db : DB) (year : String)
    (importing_country resource : PyId) (results : List Record)
    (cache : Cache) : Except String (List Record × Cache) :=
  match cvtresourceHS db resource with
  | .error e => .error e
  | .ok resource_hs =>
    let global_trade := filtered.filter (fun t =>
      t.period = year && t.cmdCode = pyStrOfOptInt resource_hs)
    let relevant := filtered.filter (fun t =>
      t.period = year && cellEqPyId t.reporterCode importing_country
        && t.cmdCode = pyStr resource)
    if global_trade.isEmpty then .ok (results, cache)
    else if relevant.isEmpty then .ok (results, cache)
    else
      match pdSum (global_trade.map (fun t => t.qty)) with
      | .error e => .error e
      | .ok gq =>
        let gp : Except String ℚ :=
          if gq > 0 then
            match pdSum (global_trade.map (fun t => t.cifvalue)) with
            | .error e => .error e
            | .ok gv => .ok (gv / gq)
          else .ok 0
        match gp with
        | .error e => .error e
        | .ok global_price =>
          let exporters := uniqueFirst (relevant.map (fun t => t.partnerDesc))
          match importrisk resource year importing_country exporters filtered
              global_price db with
          | [] => .ok (results, cache)
          | r0 :: rest =>
            let country_price := r0.countryPrice
            let hres := cached_HHI cache resource year db (some importing_country)
            let prodqty := hres.1.1
            let hhi := hres.1.2
            let cache' := hres.2.1
            match pdSum (relevant.map (fun t => t.qty)) with
            | .error e => .error e
            | .ok rq =>
              let denominator := rq + prodqty
              if denominator ≤ 0 then .ok (results, cache')
              else
                let global_numerator :=
                  ((r0 :: rest).map (fun r => r.numerator)).sum
                match buildRows db year importing_country resource denominator
                    country_price hhi global_price (r0 :: rest) with
                | .error e => .error e
                | .ok rows =>
                  if global_numerator > 0 then
                    match GeoPolRisk global_numerator denominator country_price
                        (some hhi) db with
                    | (gscore, gcf, gir) =>
                      match cvtcountryName db importing_country with
                      | .error e => .error e
                      | .ok impName =>
                        match cvtresourceName db resource with
                        | .error e => .error e
                        | .ok resName =>
                          .ok (results ++ rows ++
                            [{ year := year, importing := impName
                               exporting := "Global", resourceHS := resource
                               resourceName := resName, score := gscore
                               cf := gcf, hhi := hhi, importRisk := gir
                               globalPrice := global_price
                               countryPrice := country_price }], cache')
                  else .ok (results ++ rows, cache')

/-- The cross-product `itertools.product(period, countries, resources)`,
in iteration order. -/
def comboList (periods : List String) (countries : List PyId)
    (resources : List PyId) : List (String × PyId × PyId) :=
  periods.flatMap (fun y =>
    countries.flatMap (fun c => resources.map (fun r => (y, c, r))))

/-- The cross-product loop of `main.gprs_calc`: run `gprsStep` on each
combination in order; the first error aborts the whole batch. -/
def gprsLoop (filtered : List TradeRow) (db : DB) :
    List (String × PyId × PyId) → List Record × Cache →
    Except String (List Record × Cache)
  | [], st => .ok st
  | (y, c, r) :: cs, st =>
    match gprsStep filtered db y c r st.1 st.2 with
    | .error e => .error e
    | .ok st' => gprsLoop filtered db cs st'

/-- `main.gprs_calc`: preprocess the trade table (resolving every requested
resource up front), apply `regions`, then sweep the cross-product of
periods × countries × resources, returning the accumulated records.  There
is no `try`/`except` around the loop body: any error inside a combination
aborts the batch. -/
def gprs_calc (periods : List String) (countries : List PyId)
    (resources : List PyId) (regionDict : List (String × List String))
    (db : DB) : Except String (List Record) :=
  match preprocess_trade_data periods resources db with
  | .error e => .error e
  | .ok filtered =>
    let db1 := regionsFn regionDict db
    match gprsLoop filtered db1 (comboList periods countries resources)
        ([], []) with
    | .error e => .error e
    | .ok (results, _) => .ok results

/-! ### Concrete reference data used by witnesses and counterexamples -/

/-- A production table in kilograms: one producer `A` with 5000 kg in 2022. -/
def tKg : ProdTable :=
  { columns := ["2022"], hasUnitCol := true
    rows := [{ country := "A", countryCode := "A1", unit := "kg"
               cells := [("2022", some 5000)] }] }

/-- A database whose resource `R` (HS code 10) maps to the kilogram table. -/
def dbKg : DB :=
  { countryISO := [{ country := "A", iso := "5" }]
    hsCodeMap := [{ id := "R", hsCode := "10", sheetName := "S" }]
    production := [("S", tKg)], baciTrade := []
    regional := false, regionslist := [] }

/-- A production table with two rows for the same country `A` (3 and 4
metric tons in 2022). -/
def tDup : ProdTable :=
  { columns := ["2022"], hasUnitCol := true
    rows := [{ country := "A", countryCode := "x", unit := "metr. t"
               cells := [("2022", some 3)] },
             { country := "A", countryCode := "y", unit := "metr. t"
               cells := [("2022", some 4)] }] }

/-- A database whose resource `R` maps to the duplicate-country table. -/
def dbDup : DB :=
  { countryISO := [{ country := "A", iso := "5" }]
    hsCodeMap := [{ id := "R", hsCode := "10", sheetName := "S" }]
    production := [("S", tDup)], baciTrade := []
    regional := false, regionslist := [] }

/-- A production table tagged with the unrecognized unit `"lbs"`. -/
def tLbs : ProdTable :=
  { columns := ["2022"], hasUnitCol := true
    rows := [{ country := "A", countryCode := "z", unit := "lbs"
               cells := [("2022", some 4)] }] }

/-- A database whose resource `R` maps to the `"lbs"` table. -/
def dbLbs : DB :=
  { countryISO := [{ country := "A", iso := "5" }]
    hsCodeMap := [{ id := "R", hsCode := "10", sheetName := "S" }]
    production := [("S", tLbs)], baciTrade := []
    regional := false, regionslist := [] }

/-- A country map for trade tests: importers `X` (ISO 7) and `Y` (ISO 8),
exporter `P` (ISO 9). -/
def dbT : DB :=
  { countryISO := [{ country := "X", iso := "7" }, { country := "Y", iso := "8" },
                   { country := "P", iso := "9" }]
    hsCodeMap := [], production := [], baciTrade := []
    regional := false, regionslist := [] }

/-- A trade row whose partner WGI cell is null. -/
def rowNA : TradeRow :=
  { period := "2022", reporterCode := "7", partnerCode := "9"
    partnerDesc := "P", cmdCode := "100", qty := .float 10
    cifvalue := .float 20, partnerWGI := .none }

/-- A trade row whose partner WGI cell is the blank string. -/
def rowBlankWGI : TradeRow :=
  { period := "2022", reporterCode := "7", partnerCode := "9"
    partnerDesc := "P", cmdCode := "100", qty := .float 10
    cifvalue := .float 20, partnerWGI := .str "" }

/-- Trade of member `X`: 100 units at value 1000 with partner WGI 0.2. -/
def rowX : TradeRow :=
  { period := "2022", reporterCode := "7", partnerCode := "1"
    partnerDesc := "P1", cmdCode := "100", qty := .float 100
    cifvalue := .float 1000, partnerWGI := .float (1 / 5) }

/-- Trade of member `Y`: 50 units at value 600 with partner WGI 0.8. -/
def rowY : TradeRow :=
  { period := "2022", reporterCode := "8", partnerCode := "2"
    partnerDesc := "P2", cmdCode := "100", qty := .float 50
    cifvalue := .float 600, partnerWGI := .float (4 / 5) }

/-- A trade row for the year 2021 on commodity 10. -/
def rowC7 : TradeRow :=
  { period := "2021", reporterCode := "3", partnerCode := "4"
    partnerDesc := "Q", cmdCode := "10", qty := .float 1
    cifvalue := .float 1, partnerWGI := .float 1 }

/-- A database with a nonempty trade table but an empty HS Code Map, so no
resource can be resolved. -/
def dbBadC7 : DB :=
  { countryISO := [], hsCodeMap := [], production := []
    baciTrade := [rowC7], regional := false, regionslist := [] }

/-- A database where resource `R` resolves and the only trade row is for a
different year than the one requested. -/
def dbOk7 : DB :=
  { countryISO := [{ country := "C", iso := "3" }]
    hsCodeMap := [{ id := "R", hsCode := "10", sheetName := "S" }]
    production := [("S", tKg)], baciTrade := [rowC7]
    regional := false, regionslist := [] }

/-- A production table in million cubic meters: one producer `A` with 10
units in 2022. -/
def tM3 : ProdTable :=
  { columns := ["2022"], hasUnitCol := true
    rows := [{ country := "A", countryCode := "A1", unit := "Mio m3"
               cells := [("2022", some 10)] }] }

/-- A database whose resource `R` maps to the million-cubic-meter table. -/
def dbM3 : DB :=
  { countryISO := [{ country := "A", iso := "5" }]
    hsCodeMap := [{ id := "R", hsCode := "10", sheetName := "S" }]
    production := [("S", tM3)], baciTrade := []
    regional := false, regionslist := [] }

/-- Coherence of a memoization table: every stored pair is the value of
`HHI` at its key.  The empty cache is coherent, and `cached_HHI` preserves
coherence, so this is an invariant of every cache the program can build. -/
def Coherent (cache : Cache) : Prop :=
  ∀ k v, (k, v) ∈ cache → v = HHI k.1 k.2.1 k.2.2.1 k.2.2.2

/-- A regional database: region `EU` (member `A`) is registered and the
`regional` flag is set; resource `R` maps to the duplicate-country table. -/
def dbReg : DB :=
  { countryISO := [{ country := "A", iso := "5" }]
    hsCodeMap := [{ id := "R", hsCode := "10", sheetName := "S" }]
    production := [("S", tDup)], baciTrade := []
    regional := true, regionslist := [("EU", ["A"])] }

/-! ### Helper lemmas -/

theorem isErr_eq_false_iff {α : Type} {e : Except String α} :
    isErr e = false ↔ ∃ a, e = .ok a := by
  cases e with
  | error e => simp [isErr]
  | ok a => simp [isErr]

theorem sumproduct_self_cons (a : ℚ) (l : List ℚ) :
    sumproduct (a :: l) (a :: l) = a * a + sumproduct l l := rfl

theorem list_sum_nonneg (l : List ℚ) (h : ∀ q ∈ l, 0 ≤ q) : 0 ≤ l.sum := by
  induction l with
  | nil => simp
  | cons a l ih =>
    have ha := h a (by simp)
    have hl := ih (fun q hq => h q (by simp [hq]))
    simp only [List.sum_cons]
    linarith

theorem sumproduct_self_nonneg (l : List ℚ) : 0 ≤ sumproduct l l := by
  induction l with
  | nil => simp [sumproduct]
  | cons a l ih =>
    rw [sumproduct_self_cons]
    nlinarith [sq_nonneg a]

theorem sumproduct_self_le_sq_sum (l : List ℚ) (h : ∀ q ∈ l, 0 ≤ q) :
    sumproduct l l ≤ l.sum ^ 2 := by
  induction l with
  | nil => simp [sumproduct]
  | cons a l ih =>
    have ha := h a (by simp)
    have hl : ∀ q ∈ l, 0 ≤ q := fun q hq => h q (by simp [hq])
    have hs := list_sum_nonneg l hl
    have ihl := ih hl
    rw [sumproduct_self_cons]
    simp only [List.sum_cons]
    nlinarith

theorem sumproduct_self_eq_zero (l : List ℚ) (h : ∀ q ∈ l, 0 ≤ q)
    (hs : l.sum = 0) : sumproduct l l = 0 := by
  induction l with
  | nil => simp [sumproduct]
  | cons a l ih =>
    have ha := h a (by simp)
    have hl : ∀ q ∈ l, 0 ≤ q := fun q hq => h q (by simp [hq])
    have hts : 0 ≤ l.sum := list_sum_nonneg l hl
    simp only [List.sum_cons] at hs
    have ha0 : a = 0 := by linarith
    have hl0 : l.sum = 0 := by linarith
    rw [sumproduct_self_cons, ih hl hl0, ha0]
    ring

/-- On the no-error path, `HHI` returns the pair built from the country
production and `hhiOf`. -/
theorem HHI_eq_of_ok (resource : PyId) (year : String) (db : DB)
    (country : Option PyId) (t : ProdTable)
    (hget : getProd resource db = .ok t)
    (hne : (t.rows.isEmpty || !(t.columns.contains year)) = false)
    (hcountry : match country with
       | some c => isErr (cvtcountryName db c) = false
       | Option.none => True)
    (hunit : isErr (unitNorm (prodFilter t) t.hasUnitCol
        (prodYear t year).sum) = false) :
    (HHI resource year db country).2 = hhiOf t year := by
  obtain ⟨u, hu⟩ := isErr_eq_false_iff.mp hunit
  unfold HHI HHI_body
  rw [hget]
  simp only [hne]
  cases country with
  | none =>
    simp only [hu]
    simp
  | some c =>
    obtain ⟨name, hv⟩ := isErr_eq_false_iff.mp hcountry
    simp only [hv, hu]
    simp

theorem hhiOf_eq_formula (t : ProdTable) (year : String)
    (hpos : ∀ q ∈ prodYear t year, 0 ≤ q) :
    hhiOf t year
      = sumproduct (prodYear t year) (prodYear t year)
          / (prodYear t year).sum ^ 2 := by
  unfold hhiOf
  by_cases hgt : (prodYear t year).sum > 0
  · simp [hgt]
  · have h0 : (prodYear t year).sum = 0 :=
      le_antisymm (not_lt.mp hgt) (list_sum_nonneg _ hpos)
    have hsp := sumproduct_self_eq_zero _ hpos h0
    simp [hgt, h0, hsp]

/-! ### Claim C1 -/

/-- Claim C1: on a resolvable resource and country (or no country), with the
year column present and nonnegative production quantities, the HHI value
returned by `HHI` equals the sum of squared producer quantities divided by
the square of the total quantity, computed over the rows left after
excluding those flagged `"DELETE"`; it lies in `[0, 1]` and equals `0` when
the total production is `0`. -/
theorem hhi_formula_and_bounds (resource : PyId) (year : String) (db : DB)
    (country : Option PyId) (t : ProdTable)
    (hget : getProd resource db = .ok t)
    (hne : (t.rows.isEmpty || !(t.columns.contains year)) = false)
    (hcountry : match country with
       | some c => isErr (cvtcountryName db c) = false
       | Option.none => True)
    (hunit : isErr (unitNorm (prodFilter t) t.hasUnitCol
        (prodYear t year).sum) = false)
    (hpos : ∀ q ∈ prodYear t year, 0 ≤ q) :
    (HHI resource year db country).2
        = sumproduct (prodYear t year) (prodYear t year)
            / (prodYear t year).sum ^ 2
      ∧ 0 ≤ (HHI resource year db country).2
      ∧ (HHI resource year db country).2 ≤ 1
      ∧ ((prodYear t year).sum = 0 → (HHI resource year db country).2 = 0) := by
  have heq := HHI_eq_of_ok resource year db country t hget hne hcountry hunit
  rw [heq, hhiOf_eq_formula t year hpos]
  refine ⟨rfl, ?_, ?_, ?_⟩
  · exact div_nonneg (sumproduct_self_nonneg _) (sq_nonneg _)
  · by_cases hgt : (prodYear t year).sum > 0
    · exact (div_le_one (pow_pos hgt 2)).mpr
        (sumproduct_self_le_sq_sum _ hpos)
    · have h0 : (prodYear t year).sum = 0 :=
        le_antisymm (not_lt.mp hgt) (list_sum_nonneg _ hpos)
      rw [h0, sumproduct_self_eq_zero _ hpos h0]
      norm_num
  · intro h0
    rw [h0, sumproduct_self_eq_zero _ hpos h0]
    norm_num

/-- Witness for claim C1: the kilogram table with the single producer `A`
(5000 units in 2022) satisfies all hypotheses; its HHI is 1. -/
theorem hhi_formula_and_bounds_wit :
    (HHI (.str "R") "2022" dbKg (some (.str "A"))).2
        = sumproduct (prodYear tKg "2022") (prodYear tKg "2022")
            / (prodYear tKg "2022").sum ^ 2
      ∧ 0 ≤ (HHI (.str "R") "2022" dbKg (some (.str "A"))).2
      ∧ (HHI (.str "R") "2022" dbKg (some (.str "A"))).2 ≤ 1
      ∧ ((prodYear tKg "2022").sum = 0
          → (HHI (.str "R") "2022" dbKg (some (.str "A"))).2 = 0) :=
  hhi_formula_and_bounds (.str "R") "2022" dbKg (some (.str "A")) tKg
    rfl rfl rfl rfl (by decide)

/-! ### Claim C2 -/

/-- Claim C2: `GeoPolRisk` returns `(0, 0, 0)` whenever the denominator is
non-positive; for a positive denominator it returns the triple
`(Score, CF, WTA)` with `WTA = n/d`, `Score = h·WTA` (a missing `hhi` read
as 0) and `CF = Score·p` when `p > 0` else `0`.  The embedding is a total
function: no input raises. -/
theorem geopolrisk_compose (n d p : ℚ) (h : Option ℚ) (db : DB) :
    (d ≤ 0 → GeoPolRisk n d p h db = (0, 0, 0))
    ∧ (0 < d →
        GeoPolRisk n d p h db
          = (h.getD 0 * (n / d),
             if 0 < p then h.getD 0 * (n / d) * p else 0,
             n / d)) := by
  constructor
  · intro hd
    simp [GeoPolRisk, hd]
  · intro hd
    have hnd : ¬ d ≤ 0 := not_le.mpr hd
    cases h with
    | none => simp [GeoPolRisk, hnd, Option.getD]
    | some v => simp [GeoPolRisk, hnd, Option.getD]

/-- Witness for claim C2 at concrete inputs on both sides of the
denominator guard. -/
theorem geopolrisk_compose_wit :
    GeoPolRisk 3 (-2) 5 Option.none dbT = (0, 0, 0)
    ∧ GeoPolRisk 6 2 1 (some (1 / 2)) dbT = (3 / 2, 3 / 2, 3) := by
  constructor
  · exact (geopolrisk_compose 3 (-2) 5 Option.none dbT).1 (by norm_num)
  · have h := (geopolrisk_compose 6 2 1 (some (1 / 2)) dbT).2 (by norm_num)
    rw [h]
    norm_num

/-! ### Claim C10 -/

/-- Claim C10: the result of `GeoPolRisk` depends only on the four numeric
arguments; the `db` argument has no influence on the output. -/
theorem geopolrisk_db_irrelevant (n d p : ℚ) (h : Option ℚ) (db1 db2 : DB) :
    GeoPolRisk n d p h db1 = GeoPolRisk n d p h db2 := rfl

/-- On the no-error path with a country given, the quantity `HHI` returns
is the year cell of the first non-`"DELETE"` row whose `Country` equals
the resolved name, `0` when no row matches. -/
theorem HHI_fst_country (resource : PyId) (year : String) (db : DB)
    (c : PyId) (t : ProdTable) (name : String)
    (hget : getProd resource db = .ok t)
    (hne : (t.rows.isEmpty || !(t.columns.contains year)) = false)
    (hcv : cvtcountryName db c = .ok name)
    (hunit : isErr (unitNorm (prodFilter t) t.hasUnitCol
        (prodYear t year).sum) = false) :
    (HHI resource year db (some c)).1
      = (match (prodFilter t).find? (fun r => r.country = name) with
         | some r => cellD r year
         | Option.none => 0) := by
  obtain ⟨u, hu⟩ := isErr_eq_false_iff.mp hunit
  unfold HHI HHI_body
  rw [hget]
  simp only [hne, hcv, hu]
  simp

/-! ### Claim C3 -/

/-- Claim C3 (code bug evaluation): `core.HHI` computes the unit
normalization on the local `ProdQty` and then discards it; the quantity it
returns is the raw `country_prod`.  For the kilogram table (one producer
with 5000 kg) the call returns quantity 5000, not the 5.0 the spec
requires, and for the million-cubic-meter table (one producer with 10
units) it returns 10, not 0.008; the HHI component is 1 in both cases. -/
theorem hhi_unit_normalization_dead :
    HHI (.str "R") "2022" dbKg (some (.str "A")) = (5000, 1)
    ∧ HHI (.str "R") "2022" dbM3 (some (.str "A")) = (10, 1) := by
  constructor
  · have h1 : (HHI (.str "R") "2022" dbKg (some (.str "A"))).1 = 5000 :=
      (HHI_fst_country (.str "R") "2022" dbKg (.str "A") tKg "A"
        rfl rfl rfl rfl).trans rfl
    have h2 : (HHI (.str "R") "2022" dbKg (some (.str "A"))).2 = 1 := by
      have h := HHI_eq_of_ok (.str "R") "2022" dbKg (some (.str "A")) tKg
        rfl rfl rfl rfl
      rw [h]
      unfold hhiOf
      rw [show prodYear tKg "2022" = [5000] from rfl]
      norm_num [sumproduct]
    have e : HHI (.str "R") "2022" dbKg (some (.str "A"))
        = ((HHI (.str "R") "2022" dbKg (some (.str "A"))).1,
           (HHI (.str "R") "2022" dbKg (some (.str "A"))).2) := rfl
    rw [e, h1, h2]
  · have h1 : (HHI (.str "R") "2022" dbM3 (some (.str "A"))).1 = 10 :=
      (HHI_fst_country (.str "R") "2022" dbM3 (.str "A") tM3 "A"
        rfl rfl rfl rfl).trans rfl
    have h2 : (HHI (.str "R") "2022" dbM3 (some (.str "A"))).2 = 1 := by
      have h := HHI_eq_of_ok (.str "R") "2022" dbM3 (some (.str "A")) tM3
        rfl rfl rfl rfl
      rw [h]
      unfold hhiOf
      rw [show prodYear tM3 "2022" = [10] from rfl]
      norm_num [sumproduct]
    have e : HHI (.str "R") "2022" dbM3 (some (.str "A"))
        = ((HHI (.str "R") "2022" dbM3 (some (.str "A"))).1,
           (HHI (.str "R") "2022" dbM3 (some (.str "A"))).2) := rfl
    rw [e, h1, h2]

/-! ### Claim C4 -/

/-- Counterexample to claim C4: in a table with two producer rows for
country `A` (3 and 4 metric tons in 2022), the claim predicts the returned
quantity `3 + 4 = 7`, but `HHI` reads the first matching row only
(`.iloc[0]`) and returns 3 (the HHI over `[3, 4]` being `25/49`). -/
theorem hhi_quantity_not_sum_cex :
    HHI (.str "R") "2022" dbDup (some (.str "A")) = (3, 25 / 49) := by
  have h1 : (HHI (.str "R") "2022" dbDup (some (.str "A"))).1 = 3 :=
    (HHI_fst_country (.str "R") "2022" dbDup (.str "A") tDup "A"
      rfl rfl rfl rfl).trans rfl
  have h2 : (HHI (.str "R") "2022" dbDup (some (.str "A"))).2 = 25 / 49 := by
    have h := HHI_eq_of_ok (.str "R") "2022" dbDup (some (.str "A")) tDup
      rfl rfl rfl rfl
    rw [h]
    unfold hhiOf
    rw [show prodYear tDup "2022" = [3, 4] from rfl]
    norm_num [sumproduct]
  have e : HHI (.str "R") "2022" dbDup (some (.str "A"))
      = ((HHI (.str "R") "2022" dbDup (some (.str "A"))).1,
         (HHI (.str "R") "2022" dbDup (some (.str "A"))).2) := rfl
  rw [e, h1, h2]

/-- Claim C4 (amended): on the no-error path the quantity returned by `HHI`
for a requested country is the year value of the *first* non-`"DELETE"` row
whose `Country` equals the resolved name — not a sum — and it is 0 when no
row matches; in particular a region name (which resolves through the region
registry but is not a country of the production table) yields 0, with no
aggregation across members. -/
theorem hhi_quantity_first_match (resource : PyId) (year : String) (db : DB)
    (c : PyId) (t : ProdTable) (name : String)
    (hget : getProd resource db = .ok t)
    (hne : (t.rows.isEmpty || !(t.columns.contains year)) = false)
    (hcv : cvtcountryName db c = .ok name)
    (hunit : isErr (unitNorm (prodFilter t) t.hasUnitCol
        (prodYear t year).sum) = false) :
    ((HHI resource year db (some c)).1
        = (match (prodFilter t).find? (fun r => r.country = name) with
           | some r => cellD r year
           | Option.none => 0))
    ∧ (name ∉ (prodFilter t).map (fun r => r.country)
        → (HHI resource year db (some c)).1 = 0) := by
  have h := HHI_fst_country resource year db c t name hget hne hcv hunit
  refine ⟨h, fun hmem => ?_⟩
  have hfind : (prodFilter t).find? (fun r => r.country = name)
      = Option.none := by
    rw [List.find?_eq_none]
    intro r hr
    simp only [decide_eq_true_eq]
    intro hcon
    exact hmem (List.mem_map.mpr ⟨r, hr, hcon⟩)
  rw [h, hfind]

/-- Witness for amended claim C4: the duplicate-row table returns the first
row's value 3, and a registered region name returns 0 because it matches no
production row. -/
theorem hhi_quantity_first_match_wit :
    (HHI (.str "R") "2022" dbDup (some (.str "A"))).1 = 3
    ∧ (HHI (.str "R") "2022" dbReg (some (.str "EU"))).1 = 0 := by
  constructor
  · exact (hhi_quantity_first_match (.str "R") "2022" dbDup (.str "A") tDup
      "A" rfl rfl rfl rfl).1.trans rfl
  · exact (hhi_quantity_first_match (.str "R") "2022" dbReg (.str "EU") tDup
      "EU" rfl rfl rfl rfl).2 (by decide)

/-! ### Claim C8 -/

/-- Counterexample to claim C8: for a production table whose unit tag is
the unrecognized `"lbs"`, the unit check does raise `ValueError` inside the
`try` body, but `HHI`'s own blanket `except` catches it, so the caller
receives the degraded default `(0, 0)` — no exception reaches the caller. -/
theorem hhi_unrecognized_unit_cex :
    HHI_body (.str "R") "2022" dbLbs (some (.str "A"))
        = .error "ValueError: Unexpected unit"
    ∧ HHI (.str "R") "2022" dbLbs (some (.str "A")) = (0, 0) :=
  ⟨rfl, rfl⟩

/-- Claim C8 (amended): a unit tag outside the recognized set
`{metr. t, kg, Mio m3}` makes the unit check raise `ValueError` inside
`HHI`'s `try` body, and the function's own handler catches it, so the
caller receives `(0, 0)` — the quantity is neither passed through nor is
the error propagated. -/
theorem hhi_unrecognized_unit_degrades (resource : PyId) (year : String)
    (db : DB) (country : Option PyId) (t : ProdTable)
    (hget : getProd resource db = .ok t)
    (hne : (t.rows.isEmpty || !(t.columns.contains year)) = false)
    (hrows : (prodFilter t).isEmpty = false)
    (hcol : t.hasUnitCol = true)
    (hunit : ((((prodFilter t).head?).map (fun r => r.unit)).getD "")
        ∉ ["metr. t", "kg", "Mio m3"]) :
    isErr (HHI_body resource year db country) = true
    ∧ HHI resource year db country = (0, 0) := by
  have h1 : ((((prodFilter t).head?).map (fun r => r.unit)).getD "")
      ≠ "metr. t" := fun h => hunit (by simp [h])
  have h2 : ((((prodFilter t).head?).map (fun r => r.unit)).getD "")
      ≠ "kg" := fun h => hunit (by simp [h])
  have h3 : ((((prodFilter t).head?).map (fun r => r.unit)).getD "")
      ≠ "Mio m3" := fun h => hunit (by simp [h])
  have hu : unitNorm (prodFilter t) t.hasUnitCol (prodYear t year).sum
      = .error "ValueError: Unexpected unit" := by
    unfold unitNorm
    rw [hrows, hcol]
    simp [h1, h2, h3]
  have hbody : isErr (HHI_body resource year db country) = true := by
    unfold HHI_body
    rw [hget]
    simp only [hne]
    cases country with
    | none => simp [hu, isErr]
    | some c =>
      cases hc : cvtcountryName db c with
      | error e => simp [hc, isErr]
      | ok name => simp [hc, hu, isErr]
  refine ⟨hbody, ?_⟩
  unfold HHI
  cases hb : HHI_body resource year db country with
  | error e => rfl
  | ok v =>
    rw [hb] at hbody
    simp [isErr] at hbody

/-- Witness for amended claim C8 at the `"lbs"` table. -/
theorem hhi_unrecognized_unit_degrades_wit :
    isErr (HHI_body (.str "R") "2022" dbLbs (some (.str "A"))) = true
    ∧ HHI (.str "R") "2022" dbLbs (some (.str "A")) = (0, 0) :=
  hhi_unrecognized_unit_degrades (.str "R") "2022" dbLbs (some (.str "A"))
    tLbs rfl rfl rfl rfl (by decide)

/-! ### Claim C5 -/

/-- The accumulation loop of `aggregateTrade` returns the componentwise sums
of the member contributions when every member aggregates without error. -/
theorem aggLoop_ok (data : List TradeRow) (year : String) (cmd : PyId)
    (db : DB) (cs : List PyId)
    (h : ∀ c ∈ cs, isErr (aggCountry data year cmd db c) = false) :
    aggLoop data year cmd db cs
      = .ok ((cs.map (fun c => (memberTriple data year cmd db c).1)).sum,
             (cs.map (fun c => (memberTriple data year cmd db c).2.1)).sum,
             (cs.map (fun c => (memberTriple data year cmd db c).2.2)).sum) := by
  induction cs with
  | nil => simp [aggLoop]
  | cons c cs ih =>
    have hc := h c (by simp)
    obtain ⟨t, ht⟩ := isErr_eq_false_iff.mp hc
    have htr : memberTriple data year cmd db c = t := by
      simp [memberTriple, ht]
    have ihr := ih (fun x hx => h x (by simp [hx]))
    obtain ⟨q, v, n⟩ := t
    simp only [aggLoop, ht, ihr, htr, List.map_cons, List.sum_cons]

/-- A member whose direct aggregation succeeds contributes its own
`Numerator` to the singleton aggregation. -/
theorem memberNumerator_eq (data : List TradeRow) (year : String) (cmd : PyId)
    (db : DB) (c : PyId)
    (hc : isErr (aggCountry data year cmd db c) = false) :
    memberNumerator data year cmd db c
      = (memberTriple data year cmd db c).2.2 := by
  obtain ⟨t, ht⟩ := isErr_eq_false_iff.mp hc
  obtain ⟨q, v, n⟩ := t
  simp [memberNumerator, memberTriple, aggregateTrade, aggLoop, ht]

/-- A member whose direct aggregation succeeds contributes its own
`TotalTrade` to the singleton aggregation. -/
theorem memberTotalTrade_eq (data : List TradeRow) (year : String) (cmd : PyId)
    (db : DB) (c : PyId)
    (hc : isErr (aggCountry data year cmd db c) = false) :
    memberTotalTrade data year cmd db c
      = (memberTriple data year cmd db c).1 := by
  obtain ⟨t, ht⟩ := isErr_eq_false_iff.mp hc
  obtain ⟨q, v, n⟩ := t
  simp [memberTotalTrade, memberTriple, aggregateTrade, aggLoop, ht]

/-- Claim C5: when every member of a region resolves and aggregates without
error, the regional `aggregateTrade` returns the sums of the per-member
direct aggregations for `Numerator` and `TotalTrade`, and a region price
equal to the total traded value divided by the total traded quantity across
all members (0 when the total quantity is not positive); a resolvable
member with no matching trade rows contributes `(0, 0, 0)`. -/
theorem aggregate_trade_regional_sum (data : List TradeRow) (year : String)
    (countries : List PyId) (cmd : PyId) (db : DB)
    (h : ∀ c ∈ countries, isErr (aggCountry data year cmd db c) = false) :
    (aggregateTrade data year countries cmd db
      = .ok ((countries.map (memberNumerator data year cmd db)).sum,
             (countries.map (memberTotalTrade data year cmd db)).sum,
             if (countries.map (memberTotalTrade data year cmd db)).sum > 0
             then (countries.map
                     (fun c => (memberTriple data year cmd db c).2.1)).sum
                    / (countries.map (memberTotalTrade data year cmd db)).sum
             else 0))
    ∧ (∀ c code, cvtcountryISO db c = .ok code
        → (tradeRowsFor data year cmd code).isEmpty = true
        → memberTriple data year cmd db c = (0, 0, 0)) := by
  constructor
  · have hl := aggLoop_ok data year cmd db countries h
    have e1 : countries.map (memberNumerator data year cmd db)
        = countries.map (fun c => (memberTriple data year cmd db c).2.2) :=
      List.map_congr_left (fun c hc => memberNumerator_eq data year cmd db c
        (h c hc))
    have e2 : countries.map (memberTotalTrade data year cmd db)
        = countries.map (fun c => (memberTriple data year cmd db c).1) :=
      List.map_congr_left (fun c hc => memberTotalTrade_eq data year cmd db c
        (h c hc))
    unfold aggregateTrade
    rw [hl, e1, e2]
  · intro c code hcode hrows
    unfold memberTriple aggCountry
    rw [hcode]
    simp [hrows]

/-- Witness for claim C5: two members `X` and `Y` with trade
`qty = [100, 50]`, `WGI = [0.2, 0.8]`, `value = [1000, 600]` aggregate to
`Numerator = 60`, `TotalTrade = 150`, `Price = 1600/150 = 32/3`. -/
theorem aggregate_trade_regional_sum_wit :
    aggregateTrade [rowX, rowY] "2022" [.str "X", .str "Y"] (.str "100") dbT
      = .ok (60, 150, 32 / 3) := by
  have h := (aggregate_trade_regional_sum [rowX, rowY] "2022"
    [.str "X", .str "Y"] (.str "100") dbT (by decide)).1
  rw [h]
  have eN1 : memberNumerator [rowX, rowY] "2022" (.str "100") dbT (.str "X")
      = sumproduct [100] [1 / 5] + 0 := rfl
  have eN2 : memberNumerator [rowX, rowY] "2022" (.str "100") dbT (.str "Y")
      = sumproduct [50] [4 / 5] + 0 := rfl
  have eQ1 : memberTotalTrade [rowX, rowY] "2022" (.str "100") dbT (.str "X")
      = List.sum [(100 : ℚ)] + 0 := rfl
  have eQ2 : memberTotalTrade [rowX, rowY] "2022" (.str "100") dbT (.str "Y")
      = List.sum [(50 : ℚ)] + 0 := rfl
  have eV1 : (memberTriple [rowX, rowY] "2022" (.str "100") dbT (.str "X")).2.1
      = List.sum [(1000 : ℚ)] := rfl
  have eV2 : (memberTriple [rowX, rowY] "2022" (.str "100") dbT (.str "Y")).2.1
      = List.sum [(600 : ℚ)] := rfl
  simp only [List.map_cons, List.map_nil, List.sum_cons, List.sum_nil,
    eN1, eN2, eQ1, eQ2, eV1, eV2, sumproduct]
  norm_num

/-! ### Claim C6 -/

/-- Counterexample to claim C6: in the regional aggregation a null partner
WGI is passed through `replace_func`, not through a WGI defaulter: a single
trade row with `qty = 10`, `value = 20` and a null WGI yields
`Numerator = 10·0 = 0` (the claim's neutral default 0.5 would give 5). -/
theorem aggregate_wgi_sentinel_cex :
    aggregateTrade [rowNA] "2022" [.str "X"] (.str "100") dbT
      = .ok (0, 10, 2) := by
  have e : aggregateTrade [rowNA] "2022" [.str "X"] (.str "100") dbT
      = .ok (sumproduct [10] [0] + 0, List.sum [(10 : ℚ)] + 0,
             if List.sum [(10 : ℚ)] + 0 > 0 then
               (List.sum [(20 : ℚ)] + 0) / (List.sum [(10 : ℚ)] + 0)
             else 0) := rfl
  rw [e]
  norm_num [sumproduct]

/-- Claim C6 (amended): only `core.importrisk` weights a missing (`None`)
or `"NA"` partner WGI with the neutral default 0.5; a blank WGI string is
not defaulted there — the float coercion fails and that exporter's rows are
skipped.  In the regional `aggregateTrade`, the WGI column goes through
`replace_func`, so its sentinels (`None`, strings stripping to `"NA"`, a
single space) default to 0, as do missing `qty`/`cifvalue` everywhere. -/
theorem trade_sentinel_defaults :
    (∀ q : ℚ, wgi_func (.float q) = .float q)
    ∧ wgi_func .none = .float (1 / 2)
    ∧ (∀ s, pyStrip s = "NA" → wgi_func (.str s) = .float (1 / 2))
    ∧ replace_func .none = .float 0
    ∧ (∀ s, pyStrip s = "NA" ∨ s = " " → replace_func (.str s) = .float 0)
    ∧ coreReplace .none = 0
    ∧ coreReplace (.str "NA") = 0
    ∧ importrisk (.str "100") "2022" (.str "X") ["P"] [rowNA] 0 dbT
        = [{ exporter := "P", numerator := 5, totalTrade := 10,
             globalPrice := 0, countryPrice := 2 }]
    ∧ importrisk (.str "100") "2022" (.str "X") ["P"] [rowBlankWGI] 0 dbT
        = [] := by
  refine ⟨fun q => rfl, rfl, ?_, rfl, ?_, rfl, rfl, ?_, rfl⟩
  · intro s hs
    simp [wgi_func, hs]
  · intro s hs
    rcases hs with hs | hs
    · simp [replace_func, hs]
    · subst hs
      rfl
  · have e : importrisk (.str "100") "2022" (.str "X") ["P"] [rowNA] 0 dbT
        = [{ exporter := "P", numerator := sumproduct [10] [1 / 2]
             totalTrade := List.sum [(10 : ℚ)], globalPrice := 0
             countryPrice := if List.sum [(10 : ℚ)] > 0 then
                 List.sum [(20 : ℚ)] / List.sum [(10 : ℚ)]
               else 0 }] := rfl
    rw [e]
    norm_num [sumproduct, XRow.mk.injEq]

/-- Witness for amended claim C6 at a whitespace-padded `"NA"` sentinel. -/
theorem trade_sentinel_defaults_wit :
    wgi_func (.str " NA ") = .float (1 / 2)
    ∧ replace_func (.str " NA ") = .float 0 :=
  ⟨trade_sentinel_defaults.2.2.1 " NA " rfl,
   trade_sentinel_defaults.2.2.2.2.1 " NA " (Or.inl rfl)⟩

/-! ### Claim C9 -/

/-- A successful cache lookup comes from a stored entry. -/
theorem cacheLookup_mem (cache : Cache) (k : CKey) (v : ℚ × ℚ)
    (h : cacheLookup cache k = some v) : (k, v) ∈ cache := by
  induction cache with
  | nil => simp [cacheLookup] at h
  | cons p rest ih =>
    obtain ⟨k', v'⟩ := p
    by_cases hk : k' = k
    · subst hk
      simp [cacheLookup] at h
      subst h
      exact List.mem_cons_self _ _
    · simp only [cacheLookup, if_neg hk] at h
      exact List.mem_cons_of_mem _ (ih h)

/-- Claim C9: starting from a coherent cache (an invariant that holds for
the empty cache and is preserved by every call), `cached_HHI` returns the
value of `HHI` at the same arguments, the resulting cache is coherent, and
a second call with identical arguments returns that same value and cache
with the `Bool` flag `false`: the wrapped computation is not re-invoked. -/
theorem cached_hhi_memoization (cache : Cache) (r : PyId) (y : String)
    (db : DB) (c : Option PyId) (hco : Coherent cache) :
    ((cached_HHI cache r y db c).1 = HHI r y db c)
    ∧ Coherent (cached_HHI cache r y db c).2.1
    ∧ cached_HHI (cached_HHI cache r y db c).2.1 r y db c
        = ((cached_HHI cache r y db c).1,
           (cached_HHI cache r y db c).2.1, false) := by
  cases h : cacheLookup cache (r, y, db, c) with
  | some v =>
    have hv : v = HHI r y db c := hco _ _ (cacheLookup_mem _ _ _ h)
    refine ⟨?_, ?_, ?_⟩
    · simp only [cached_HHI, h]
      exact hv
    · simp only [cached_HHI, h]
      exact hco
    · simp only [cached_HHI, h]
  | none =>
    refine ⟨?_, ?_, ?_⟩
    · simp only [cached_HHI, h]
    · simp only [cached_HHI, h]
      intro k' v' hmem
      rcases List.mem_cons.mp hmem with he | ht
      · rw [Prod.ext_iff] at he
        obtain ⟨hk, hv⟩ := he
        subst hk
        simp only at hv
        subst hv
        rfl
      · exact hco _ _ ht
    · simp only [cached_HHI, h]
      simp [cacheLookup]

/-- Witness for claim C9: a first call from the empty cache on the kilogram
database, followed by a second identical call. -/
theorem cached_hhi_memoization_wit :
    ((cached_HHI [] (.str "R") "2022" dbKg (some (.str "A"))).1
        = HHI (.str "R") "2022" dbKg (some (.str "A")))
    ∧ Coherent (cached_HHI [] (.str "R") "2022" dbKg (some (.str "A"))).2.1
    ∧ cached_HHI (cached_HHI [] (.str "R") "2022" dbKg
          (some (.str "A"))).2.1 (.str "R") "2022" dbKg (some (.str "A"))
        = ((cached_HHI [] (.str "R") "2022" dbKg (some (.str "A"))).1,
           (cached_HHI [] (.str "R") "2022" dbKg (some (.str "A"))).2.1,
           false) :=
  cached_hhi_memoization [] (.str "R") "2022" dbKg (some (.str "A"))
    (fun k v h => absurd h (List.not_mem_nil _))

/-! ### Claim C7 -/

/-- If any resource in the list fails HS resolution, the whole resolution
loop of the preprocessing step fails. -/
theorem resourceCodes_err (db : DB) (rs : List PyId)
    (h : ∃ r ∈ rs, isErr (cvtresourceHS db r) = true) :
    isErr (resourceCodes db rs) = true := by
  induction rs with
  | nil => simp at h
  | cons a rs ih =>
    obtain ⟨r, hr, herr⟩ := h
    cases hca : cvtresourceHS db a with
    | error e => simp [resourceCodes, hca, isErr]
    | ok v =>
      rcases List.mem_cons.mp hr with he | ht
      · subst he
        rw [hca] at herr
        simp [isErr] at herr
      · have hrs := ih ⟨r, ht, herr⟩
        simp only [resourceCodes, hca]
        cases hrc : resourceCodes db rs with
        | error e => simp [isErr]
        | ok cs =>
          rw [hrc] at hrs
          simp [isErr] at hrs

/-- A combination whose global or relevant trade slice is empty is skipped:
the loop state is unchanged. -/
theorem gprsStep_skip (F : List TradeRow) (db1 : DB) (y : String)
    (c r : PyId) (res : List Record) (cache : Cache) (hs : Option Int)
    (hcv : cvtresourceHS db1 r = .ok hs)
    (hsk : (F.filter (fun t => t.period = y
          && t.cmdCode = pyStrOfOptInt hs)).isEmpty = true
        ∨ (F.filter (fun t => t.period = y
          && cellEqPyId t.reporterCode c
          && t.cmdCode = pyStr r)).isEmpty = true) :
    gprsStep F db1 y c r res cache = .ok (res, cache) := by
  unfold gprsStep
  rw [hcv]
  rcases hsk with hg | hrel
  · simp [hg]
  · by_cases hg : (F.filter (fun t => t.period = y
        && t.cmdCode = pyStrOfOptInt hs)).isEmpty = true
    · simp [hg]
    · simp [hg, hrel]

/-- If every combination's step leaves any state unchanged, the whole loop
returns its initial state. -/
theorem gprsLoop_skip_all (F : List TradeRow) (db1 : DB)
    (combos : List (String × PyId × PyId))
    (h : ∀ x ∈ combos, ∀ res cache,
        gprsStep F db1 x.1 x.2.1 x.2.2 res cache = .ok (res, cache)) :
    ∀ st, gprsLoop F db1 combos st = .ok st := by
  induction combos with
  | nil => intro st; rfl
  | cons x xs ih =>
    intro st
    obtain ⟨y, c, r⟩ := x
    have hx := h (y, c, r) (by simp) st.1 st.2
    simp only [gprsLoop, hx]
    exact ih (fun z hz => h z (by simp [hz])) st

/-- Membership in the cross-product list gives membership in each factor. -/
theorem mem_comboList {y : String} {c r : PyId} {ps : List String}
    {cs rs : List PyId} (h : (y, c, r) ∈ comboList ps cs rs) :
    y ∈ ps ∧ c ∈ cs ∧ r ∈ rs := by
  simp only [comboList, List.mem_flatMap, List.mem_map] at h
  obtain ⟨y', hy', c', hc', r', hr', he⟩ := h
  cases he
  exact ⟨hy', hc', hr'⟩

/-- Claim C7 (amended): per-combination failures are not isolated.  An
unresolvable resource identifier aborts the whole batch — the error
propagates already out of the pre-loop trade preprocessing — while only the
empty-data conditions (`continue` in the source) are skipped per
combination: when every combination has an empty global or relevant trade
slice the batch completes with an empty result set. -/
theorem gprs_calc_failure_propagation :
    (∀ (periods : List String) (countries resources : List PyId)
       (rd : List (String × List String)) (db : DB),
       (∃ r ∈ resources, isErr (cvtresourceHS db r) = true) →
       isErr (gprs_calc periods countries resources rd db) = true)
    ∧ (∀ (periods : List String) (countries resources : List PyId)
       (rd : List (String × List String)) (db : DB) (F : List TradeRow),
       preprocess_trade_data periods resources db = .ok F →
       (∀ y ∈ periods, ∀ c ∈ countries, ∀ r ∈ resources,
          isErr (cvtresourceHS (regionsFn rd db) r) = false
          ∧ (∀ hs, cvtresourceHS (regionsFn rd db) r = .ok hs →
              (F.filter (fun t => t.period = y
                  && t.cmdCode = pyStrOfOptInt hs)).isEmpty = true
              ∨ (F.filter (fun t => t.period = y
                  && cellEqPyId t.reporterCode c
                  && t.cmdCode = pyStr r)).isEmpty = true)) →
       gprs_calc periods countries resources rd db = .ok []) := by
  constructor
  · intro periods countries resources rd db hex
    have hp : isErr (preprocess_trade_data periods resources db) = true := by
      unfold preprocess_trade_data
      by_cases hb : db.baciTrade.isEmpty = true
      · simp [hb, isErr]
      · simp only [hb, Bool.false_eq_true, if_false]
        have hrc := resourceCodes_err db resources hex
        cases hr : resourceCodes db resources with
        | error e => simp [isErr]
        | ok cs =>
          rw [hr] at hrc
          simp [isErr] at hrc
    unfold gprs_calc
    cases hpp : preprocess_trade_data periods resources db with
    | error e => simp [isErr]
    | ok F =>
      rw [hpp] at hp
      simp [isErr] at hp
  · intro periods countries resources rd db F hpre hskip
    have hstep : ∀ x ∈ comboList periods countries resources, ∀ res cache,
        gprsStep F (regionsFn rd db) x.1 x.2.1 x.2.2 res cache
          = .ok (res, cache) := by
      intro x hx res cache
      obtain ⟨y, c, r⟩ := x
      obtain ⟨hy, hc, hr⟩ := mem_comboList hx
      obtain ⟨hok, hcond⟩ := hskip y hy c hc r hr
      obtain ⟨hs, hhs⟩ := isErr_eq_false_iff.mp hok
      exact gprsStep_skip F (regionsFn rd db) y c r res cache hs hhs
        (hcond hs hhs)
    have hloop := gprsLoop_skip_all F (regionsFn rd db)
      (comboList periods countries resources) hstep ([], [])
    unfold gprs_calc
    rw [hpre]
    show (match gprsLoop F (regionsFn rd db)
        (comboList periods countries resources) ([], ([] : Cache)) with
      | .error e => (.error e : Except String (List Record))
      | .ok (results, _) => .ok results) = .ok []
    rw [hloop]

/-- Witness for amended claim C7: on a database where `R` resolves and the
only trade row is for 2021, requesting 2022 makes every combination an
empty-slice skip and the batch completes with no records; requesting the
unknown resource `Unobtainium` instead aborts the whole batch. -/
theorem gprs_calc_failure_propagation_wit :
    isErr (gprs_calc ["2022"] [.str "C"] [.str "Unobtainium"] [] dbOk7) = true
    ∧ gprs_calc ["2022"] [.str "C"] [.str "R"] [] dbOk7 = .ok [] := by
  constructor
  · exact gprs_calc_failure_propagation.1 ["2022"] [.str "C"]
      [.str "Unobtainium"] [] dbOk7 ⟨.str "Unobtainium", by simp, rfl⟩
  · refine gprs_calc_failure_propagation.2 ["2022"] [.str "C"] [.str "R"]
      [] dbOk7 [] rfl ?_
    intro y hy c hc r hr
    simp only [List.mem_singleton] at hy hc hr
    subst hy
    subst hc
    subst hr
    exact ⟨rfl, fun hs hhs => Or.inl rfl⟩

/-- Counterexample to claim C7: with a nonempty trade table but a resource
(`Unobtainium`) that cannot be resolved, one bad combination does not yield
a placeholder or a skip — the whole batch aborts with the propagated
`ValueError` before a single combination is processed, and no result set is
produced. -/
theorem gprs_calc_abort_cex :
    gprs_calc ["2022"] [.str "C"] [.str "Unobtainium"] [] dbBadC7
      = .error "ValueError" := rfl
